import Mathlib

/-!
Verification of the Scale & Distance Computation Engine of the
powers-explorer repository.

The JavaScript sources are embedded shallowly:

* JS numbers are modelled as exact rationals `ℚ` (the claims under study are
  about the ideal arithmetic contracts of the code, and every literal that
  appears in the relevant code paths is exactly representable);
* `Math.max` / `Math.min` become `max` / `min` on `ℚ`;
* `Math.floor(Math.log10 x)` becomes `Int.log 10 x` (the floor of the base-10
  logarithm, as defined in Mathlib);
* `Number.prototype.toFixed(d)` follows the ECMAScript specification: the
  sign is split off and the magnitude is rendered from the integer `n`
  minimising `|n / 10^d - x|`, ties picking the larger `n` — that is,
  `round (x * 10^d)` with round-half-up;
* JS `Map` with last-write-wins insertion becomes a function
  `String → Option DistRec` obtained by searching the reversed record list;
* the JS array used for the FIFO selection becomes a `List String`,
  with `shift` = `tail`/`head?` and `push` = append;
* JS `Infinity` (returned by `calculateSizeRatio` on a zero diameter)
  becomes `⊤` in `WithTop ℚ`.
-/

/-! ### Computable floor / round on `ℚ`

`Rat.num / Rat.den` integer division is the floor of a rational; `jsRound`
is the ECMAScript `toFixed` rounding (round half up).  Both kernel-reduce,
unlike Mathlib's `round`, which is what the concrete string evaluations
below need. -/

/-- Floor of a rational, computed from its numerator and denominator. -/
def ratFloor (q : ℚ) : ℤ := q.num / q.den

/-- ECMAScript rounding used by `toFixed`: nearest integer, ties upward. -/
def jsRound (q : ℚ) : ℤ := ratFloor (q + 1/2)

theorem ratFloor_eq (q : ℚ) : ratFloor q = ⌊q⌋ := Rat.floor_def.symm

theorem jsRound_eq (q : ℚ) : jsRound q = round q := by
  rw [jsRound, ratFloor_eq, round_eq]

/-! ### Constants (src/src/utils/Constants.js) -/

/-- `SCALE_DISPLAY.MIN_SIZE` — minimum visible size in pixels (10). -/
def MIN_SIZE : ℚ := 10

/-- `SCALE_DISPLAY.MAX_SCREEN_RATIO` — maximum size as fraction of screen
width (0.4 in the source, the exact rational 2/5 here). -/
def MAX_SCREEN_FRAC : ℚ := 2/5

/-- `ANIMATION_DURATION.LIGHT_MAX` — cap for the light-travel animation
duration, 10000 ms. -/
def LIGHT_MAX : ℚ := 10000

/-- `MAX_SELECTIONS` — object selection limit (2). -/
def MAX_SELECTIONS : ℕ := 2

/-! ### ScaleCalculator (src/unnamed/part_005) -/

/-- `ScaleCalculator.calculateScreenDiameter` (part_005 lines 23–33):
`maxScreenSize = screenWidth * MAX_SCREEN_RATIO`;
`ratio = realDiameter / referenceSize`; `screenSize = maxScreenSize * ratio`;
result `Math.max(minScreenSize, Math.min(screenSize, maxScreenSize))`. -/
def calculateScreenDiameter (realDiameter screenWidth referenceSize : ℚ) : ℚ :=
  max MIN_SIZE
    (min (screenWidth * MAX_SCREEN_FRAC * (realDiameter / referenceSize))
      (screenWidth * MAX_SCREEN_FRAC))

/-- `ScaleCalculator.calculateSizeRatio` (part_005 lines 149–156):
`larger = Math.max(d1, d2)`, `smaller = Math.min(d1, d2)`;
`if (smaller === 0) return Infinity; return larger / smaller`.
JS `Infinity` is modelled by `⊤ : WithTop ℚ`. -/
def calculateSizeRatioQ (diameter1 diameter2 : ℚ) : WithTop ℚ :=
  if min diameter1 diameter2 = 0 then ⊤
  else ((max diameter1 diameter2 / min diameter1 diameter2 : ℚ) : WithTop ℚ)

/-- Magnitude part of ECMAScript `toFixed(d)` on a nonnegative rational:
`n = round(q * 10^d)` rendered as `⌊n / 10^d⌋ . (n mod 10^d)` with the
fraction left-padded with zeros to `d` digits. -/
def toFixedPos (d : ℕ) (q : ℚ) : String :=
  if d = 0 then Int.repr (jsRound (q * (10:ℚ)^d) / (10:ℤ)^d)
  else
    Int.repr (jsRound (q * (10:ℚ)^d) / (10:ℤ)^d) ++ "." ++
      String.mk (List.replicate
        (d - (Nat.repr ((jsRound (q * (10:ℚ)^d) % (10:ℤ)^d).toNat)).length) '0') ++
      Nat.repr ((jsRound (q * (10:ℚ)^d) % (10:ℤ)^d).toNat)

/-- ECMAScript `Number.prototype.toFixed(d)`: a leading `-` for negative
inputs, then the magnitude rendering. -/
def toFixedStr (d : ℕ) (q : ℚ) : String :=
  if q < 0 then "-" ++ toFixedPos d (-q) else toFixedPos d q

/-- `ScaleCalculator.formatScale` (part_005 lines 120–140):
zero maps to `"0 m"`, magnitudes below `1e-100` map to `"~0 m"`, otherwise
`sign + mantissa.toFixed(2) + " × 10^" + exponent + " m"` with
`exponent = Math.floor(Math.log10 |x|)` and `mantissa = |x| / 10^exponent`. -/
def formatScale (meters : ℚ) : String :=
  if meters = 0 then "0 m"
  else if |meters| < 1/10^100 then "~0 m"
  else
    (if meters < 0 then "-" else "") ++
      toFixedStr 2 (|meters| / (10:ℚ)^(Int.log 10 |meters|)) ++
      " × 10^" ++ Int.repr (Int.log 10 |meters|) ++ " m"

/-- `ScaleCalculator.formatTime` (part_005 lines 164–176): five magnitude
bands — seconds (3 decimals), minutes, hours, days, years (2 decimals each),
with a 31,536,000-second year. -/
def formatTime (seconds : ℚ) : String :=
  if seconds < 60 then toFixedStr 3 seconds ++ " seconds"
  else if seconds < 3600 then toFixedStr 2 (seconds / 60) ++ " minutes"
  else if seconds < 86400 then toFixedStr 2 (seconds / 3600) ++ " hours"
  else if seconds < 31536000 then toFixedStr 2 (seconds / 86400) ++ " days"
  else toFixedStr 2 (seconds / 31536000) ++ " years"

/-! ### LightSpeedTraveler (src/src/components/comparison/LightSpeedTraveler.js) -/

/-- The derived timing values of a light-travel animation:
`travelTime` (s), `animationDuration` (ms), `isTimeLapsed`,
`speedMultiplier`. -/
structure LightPlan where
  travelTime : ℚ
  animationDuration : ℚ
  isTimeLapsed : Bool
  speedMultiplier : ℚ
  deriving DecidableEq

/-- `LightSpeedTraveler` constructor (lines 28–51) plus
`calculateAnimationDuration` (lines 59–78), with the duration cap as a
parameter (the source always passes `ANIMATION_DURATION.LIGHT_MAX`):
`travelTime = realDistance / speedOfLight`; `realTimeMs = travelTime * 1000`;
`animationDuration = Math.min(realTimeMs, capMs)`; if `realTimeMs > capMs`
then time-lapsed with `speedMultiplier = realTimeMs / capMs`, else real
speed with multiplier 1.  The source performs no validation of its inputs
and never throws. -/
def calculateAnimationDuration (realDistance speedOfLight capMs : ℚ) : LightPlan :=
  if realDistance / speedOfLight * 1000 > capMs then
    { travelTime := realDistance / speedOfLight
      animationDuration := min (realDistance / speedOfLight * 1000) capMs
      isTimeLapsed := true
      speedMultiplier := realDistance / speedOfLight * 1000 / capMs }
  else
    { travelTime := realDistance / speedOfLight
      animationDuration := min (realDistance / speedOfLight * 1000) capMs
      isTimeLapsed := false
      speedMultiplier := 1 }

/-! ### FIFO selection (src/src/components/comparison/ObjectSelector.js and
StateManager in src/unnamed/part_003) -/

/-- `ObjectSelector.selectObject` (lines 162–190) / `StateManager.selectObject`
(part_003 lines 127–144): when `selectedIds.length >= maxSelections` the
array is `shift`ed (first element removed and returned) before the new id is
`push`ed; otherwise the id is pushed and nothing is evicted.  Returns the new
array together with the evicted id. -/
def selectObject (maxSelections : ℕ) (selectedIds : List String) (objectId : String) :
    List String × Option String :=
  if maxSelections ≤ selectedIds.length then
    (selectedIds.tail ++ [objectId], selectedIds.head?)
  else
    (selectedIds ++ [objectId], none)

/-- `ObjectSelector.clearSelection` / `StateManager.clearSelection`: the
selection array is replaced by an empty array. -/
def clearSelection (_selectedIds : List String) : List String := []

/-- A user-driven operation on the selection state. -/
inductive SelOp where
  | select (id : String)
  | clear

/-- One operation applied to the selection state, at the source's capacity
`MAX_SELECTIONS`. -/
def applyOp (s : List String) : SelOp → List String
  | SelOp.select id => (selectObject MAX_SELECTIONS s id).1
  | SelOp.clear => clearSelection s

/-- A whole session: a sequence of operations run from the empty selection. -/
def runOps (ops : List SelOp) : List String := ops.foldl applyOp []

/-! ### Distance index (src/src/managers/DataManager.js) -/

/-- One record of the `distances` array consumed by
`DataManager.buildIndexes`: a `from` id, a `to` id and the payload. -/
structure DistRec where
  from_ : String
  to_ : String
  distance : ℚ
  deriving DecidableEq

/-- The cache key `` `${dist.from}-${dist.to}` `` used by
`DataManager.buildIndexes` (lines 130–147). -/
def distKey (d : DistRec) : String := d.from_ ++ "-" ++ d.to_

/-- `DataManager.buildIndexes` (lines 130–147): records are inserted into a
`Map` in order, so on key collision the last write wins — modelled by
searching the reversed list. -/
def buildIndexes (distances : List DistRec) : String → Option DistRec :=
  fun key => distances.reverse.find? (fun d => distKey d == key)

/-- `DataManager.getDistance` (lines 169–181): look up `"fromId-toId"` first
and fall back to `"toId-fromId"` (`get(key1) || get(key2)`; records are
always truthy). -/
def getDistance (cache : String → Option DistRec) (fromId toId : String) :
    Option DistRec :=
  match cache (fromId ++ "-" ++ toId) with
  | some record => some record
  | none => cache (toId ++ "-" ++ fromId)

/-- Two records cover the same unordered pair of ids. -/
def samePair (d1 d2 : DistRec) : Prop :=
  (d1.from_ = d2.from_ ∧ d1.to_ = d2.to_) ∨ (d1.from_ = d2.to_ ∧ d1.to_ = d2.from_)

instance (d1 d2 : DistRec) : Decidable (samePair d1 d2) := by
  unfold samePair; infer_instance

/-- A record set stores each unordered pair in a single direction: any two
records covering the same unordered pair use the same orientation. -/
def singleDirection (ds : List DistRec) : Prop :=
  ∀ d1 ∈ ds, ∀ d2 ∈ ds, samePair d1 d2 → d1.from_ = d2.from_ ∧ d1.to_ = d2.to_

instance (ds : List DistRec) : Decidable (singleDirection ds) := by
  unfold singleDirection; infer_instance

/-- An id that does not contain the key separator `'-'`. -/
def noDash (s : String) : Prop := '-' ∉ s.data

instance (s : String) : Decidable (noDash s) := by
  unfold noDash; infer_instance

/-- First record of the key-collision exhibit: the pair `{"x-y", "z"}`. -/
def drXY : DistRec := { from_ := "x-y", to_ := "z", distance := 1 }

/-- Second record of the key-collision exhibit: the pair `{"x", "y-z"}`,
whose key string coincides with that of `drXY`. -/
def drYZ : DistRec := { from_ := "x", to_ := "y-z", distance := 2 }

/-- First record of the symmetry counterexample: the pair `{"p-q", "r"}`. -/
def drPQ : DistRec := { from_ := "p-q", to_ := "r", distance := 1 }

/-- Second record of the symmetry counterexample: the pair `{"r-p", "q"}`,
whose key is the reversed-orientation key of `drPQ`'s pair. -/
def drRP : DistRec := { from_ := "r-p", to_ := "q", distance := 2 }

/-- Record used by witnesses: earth–moon distance. -/
def drEM : DistRec := { from_ := "earth", to_ := "moon", distance := 384400000 }

/-! ### Helper lemmas -/

theorem length_applyOp_le (s : List String) (op : SelOp)
    (h : s.length ≤ MAX_SELECTIONS) : (applyOp s op).length ≤ MAX_SELECTIONS := by
  cases op with
  | clear => simp [applyOp, clearSelection]
  | select id =>
    simp only [applyOp, selectObject, MAX_SELECTIONS] at *
    split
    · simp only [List.length_append, List.length_tail, List.length_cons,
        List.length_nil]
      omega
    · simp only [List.length_append, List.length_cons, List.length_nil]
      omega

theorem length_runOps_aux (ops : List SelOp) :
    ∀ s : List String, s.length ≤ MAX_SELECTIONS →
      (ops.foldl applyOp s).length ≤ MAX_SELECTIONS := by
  induction ops with
  | nil => intro s h; simpa using h
  | cons op rest ih => intro s h; exact ih _ (length_applyOp_le s op h)

theorem dash_split {l1 l2 t1 t2 : List Char} (h1 : '-' ∉ l1) (h2 : '-' ∉ t1)
    (h : l1 ++ '-' :: l2 = t1 ++ '-' :: t2) : l1 = t1 ∧ l2 = t2 := by
  induction l1 generalizing t1 with
  | nil =>
    cases t1 with
    | nil => simpa using h
    | cons c cs =>
      simp only [List.nil_append, List.cons_append, List.cons.injEq] at h
      exact absurd (h.1 ▸ List.mem_cons_self c cs) h2
  | cons x xs ih =>
    cases t1 with
    | nil =>
      simp only [List.cons_append, List.nil_append, List.cons.injEq] at h
      exact absurd (h.1 ▸ List.mem_cons_self x xs) h1
    | cons c cs =>
      simp only [List.cons_append, List.cons.injEq] at h
      obtain ⟨hx, hrest⟩ := h
      have h1' : '-' ∉ xs := fun hm => h1 (List.mem_cons_of_mem _ hm)
      have h2' : '-' ∉ cs := fun hm => h2 (List.mem_cons_of_mem _ hm)
      obtain ⟨e1, e2⟩ := ih h1' h2' hrest
      exact ⟨by rw [hx, e1], e2⟩

theorem key_inj {a b c d : String} (ha : noDash a) (hc : noDash c)
    (h : a ++ "-" ++ b = c ++ "-" ++ d) : a = c ∧ b = d := by
  have hdata : a.data ++ '-' :: b.data = c.data ++ '-' :: d.data := by
    have hd := congrArg String.data h
    simpa [String.data_append] using hd
  obtain ⟨e1, e2⟩ := dash_split ha hc hdata
  exact ⟨String.ext e1, String.ext e2⟩

theorem buildIndexes_eq_some {ds : List DistRec} {k : String} {r : DistRec}
    (h : buildIndexes ds k = some r) : r ∈ ds ∧ distKey r = k := by
  unfold buildIndexes at h
  refine ⟨List.mem_reverse.mp (List.mem_of_find?_eq_some h), ?_⟩
  have hp := List.find?_some h
  exact eq_of_beq hp

theorem int_log10_mul_zpow {m : ℚ} (e : ℤ) (h1 : 1 ≤ m) (h2 : m < 10) :
    Int.log 10 (m * 10^e) = e := by
  have h10 : ((10:ℕ):ℚ) = (10:ℚ) := by norm_num
  have hv : (0:ℚ) < m * 10^e := mul_pos (by linarith) (zpow_pos (by norm_num) e)
  refine le_antisymm ?_ ?_
  · have hlt : m * (10:ℚ)^e < 10^(e+1) := by
      rw [zpow_add₀ (by norm_num : (10:ℚ) ≠ 0) e 1, zpow_one]
      calc m * (10:ℚ)^e < 10 * 10^e :=
            mul_lt_mul_of_pos_right h2 (zpow_pos (by norm_num) e)
        _ = 10^e * 10 := by ring
    have := (Int.lt_zpow_iff_log_lt (b := 10) (by norm_num) hv).mp
      (by rw [h10]; exact hlt)
    omega
  · refine (Int.zpow_le_iff_le_log (b := 10) (by norm_num) hv).mp ?_
    rw [h10]
    calc (10:ℚ)^e = 1 * 10^e := (one_mul _).symm
      _ ≤ m * 10^e := mul_le_mul_of_nonneg_right h1 (zpow_pos (by norm_num) e).le

theorem jsRound_near (m : ℚ) : |((jsRound (m * 100) : ℤ) : ℚ)/100 - m| ≤ 1/200 := by
  rw [jsRound_eq]
  have h := abs_sub_round (m * 100)
  rw [abs_le] at h ⊢
  constructor <;> [linarith; linarith]

theorem toFixedPos_eval (d : ℕ) (q : ℚ) (n : ℤ)
    (h : jsRound (q * (10:ℚ)^d) = n) (hd : d ≠ 0) :
    toFixedPos d q =
      Int.repr (n / (10:ℤ)^d) ++ "." ++
        String.mk (List.replicate (d - (Nat.repr ((n % (10:ℤ)^d).toNat)).length) '0') ++
        Nat.repr ((n % (10:ℤ)^d).toNat) := by
  rw [toFixedPos, if_neg hd, h]

/-! ### Claim theorems -/

/-- Claim C1, counterexample: the claim asserts the clamp result lies in
`[MIN_SIZE, screenWidth * 0.4]` for every `screenWidth > 0`, but at
`realDiameter = 0`, `screenWidth = 20`, `referenceSize = 1` (all satisfying
the claim's hypotheses) the result is `MIN_SIZE = 10` while the asserted
upper bound is `20 * 0.4 = 8`, so the upper bound fails. -/
theorem claim1_counterexample :
    (0:ℚ) ≤ 0 ∧ (0:ℚ) < 20 ∧ (0:ℚ) < 1 ∧
    ¬(calculateScreenDiameter 0 20 1 ≤ 20 * MAX_SCREEN_FRAC) := by
  have hval : calculateScreenDiameter 0 20 1 = 10 := by
    unfold calculateScreenDiameter MIN_SIZE MAX_SCREEN_FRAC
    norm_num
  refine ⟨le_refl 0, by norm_num, by norm_num, ?_⟩
  rw [hval]
  unfold MAX_SCREEN_FRAC
  norm_num

/-- Claim C1, amended: for `realDiameter ≥ 0`, `screenWidth > 0`,
`referenceSize > 0` **and additionally `MIN_SIZE ≤ screenWidth * 0.4`**
(i.e. `screenWidth ≥ 25`, so that the clamp interval is nonempty),
`calculateScreenDiameter` lands in `[MIN_SIZE, screenWidth * 0.4]`, and
`realDiameter = 0` yields exactly `MIN_SIZE`. -/
theorem claim1_bounds (realDiameter screenWidth referenceSize : ℚ)
    (_hd : 0 ≤ realDiameter) (_hw : 0 < screenWidth) (_hr : 0 < referenceSize)
    (hfit : MIN_SIZE ≤ screenWidth * MAX_SCREEN_FRAC) :
    MIN_SIZE ≤ calculateScreenDiameter realDiameter screenWidth referenceSize ∧
    calculateScreenDiameter realDiameter screenWidth referenceSize ≤
      screenWidth * MAX_SCREEN_FRAC ∧
    calculateScreenDiameter 0 screenWidth referenceSize = MIN_SIZE := by
  unfold calculateScreenDiameter
  refine ⟨le_max_left _ _, max_le hfit (min_le_right _ _), ?_⟩
  have h0 : (0:ℚ) ≤ screenWidth * MAX_SCREEN_FRAC :=
    le_trans (by norm_num [MIN_SIZE]) hfit
  rw [zero_div, mul_zero, min_eq_left h0,
    max_eq_left (by norm_num [MIN_SIZE] : (0:ℚ) ≤ MIN_SIZE)]

/-- Witness for the amended claim C1 at `realDiameter = 0`,
`screenWidth = 1280`, `referenceSize = 1`. -/
theorem claim1_bounds_witness :
    MIN_SIZE ≤ calculateScreenDiameter 0 1280 1 ∧
    calculateScreenDiameter 0 1280 1 ≤ 1280 * MAX_SCREEN_FRAC ∧
    calculateScreenDiameter 0 1280 1 = MIN_SIZE :=
  claim1_bounds 0 1280 1 (le_refl 0) (by norm_num) (by norm_num)
    (by norm_num [MIN_SIZE, MAX_SCREEN_FRAC])

/-- Claim C2: the claim (and §7 of the spec) requires a descriptive error
for `distanceMeters ≤ 0`, but the `LightSpeedTraveler` constructor and
`calculateAnimationDuration` perform no validation whatsoever: at
`realDistance = -1`, `speedOfLight = 299792458`, `capMs = LIGHT_MAX` the
code silently returns the degenerate plan with a negative animation
duration, `isTimeLapsed = false` and `speedMultiplier = 1`. -/
theorem claim2_silent_degenerate_plan :
    (calculateAnimationDuration (-1) 299792458 LIGHT_MAX).isTimeLapsed = false ∧
    (calculateAnimationDuration (-1) 299792458 LIGHT_MAX).speedMultiplier = 1 ∧
    (calculateAnimationDuration (-1) 299792458 LIGHT_MAX).animationDuration < 0 := by
  have hc : ¬((-1:ℚ) / 299792458 * 1000 > LIGHT_MAX) := by norm_num [LIGHT_MAX]
  unfold calculateAnimationDuration
  rw [if_neg hc]
  refine ⟨rfl, rfl, ?_⟩
  have hneg : (-1:ℚ)/299792458 * 1000 < 0 := by norm_num
  calc min ((-1:ℚ)/299792458 * 1000) LIGHT_MAX
      ≤ (-1:ℚ)/299792458 * 1000 := min_le_left _ _
    _ < 0 := hneg

/-- Claim C3: from the empty selection with capacity `MAX_SELECTIONS = 2`,
selecting distinct ids `A`, then `B`, then `C` leaves the selection
`[B, C]`; the first two calls evict nothing and the third evicts `A`. -/
theorem claim3_fifo_sequence (A B C : String)
    (_hAB : A ≠ B) (_hAC : A ≠ C) (_hBC : B ≠ C) :
    selectObject MAX_SELECTIONS [] A = ([A], none) ∧
    selectObject MAX_SELECTIONS [A] B = ([A, B], none) ∧
    selectObject MAX_SELECTIONS [A, B] C = ([B, C], some A) :=
  ⟨rfl, rfl, rfl⟩

/-- Witness for claim C3 at the spec's concrete scenario
earth → moon → sun. -/
theorem claim3_fifo_sequence_witness :
    selectObject MAX_SELECTIONS [] "earth" = (["earth"], none) ∧
    selectObject MAX_SELECTIONS ["earth"] "moon" = (["earth", "moon"], none) ∧
    selectObject MAX_SELECTIONS ["earth", "moon"] "sun" =
      (["moon", "sun"], some "earth") :=
  claim3_fifo_sequence "earth" "moon" "sun" (by decide) (by decide) (by decide)

/-- Claim C4, counterexample: the record set `[drPQ, drRP]` stores each
unordered pair in a single direction, yet `getDistance` applied to the pair
`("p-q", "r")` is not symmetric, because the two query orientations
`"p-q-r"` and `"r-p-q"` hit the keys of two different records. -/
theorem claim4_counterexample :
    singleDirection [drPQ, drRP] ∧
    getDistance (buildIndexes [drPQ, drRP]) "p-q" "r" ≠
      getDistance (buildIndexes [drPQ, drRP]) "r" "p-q" := by
  refine ⟨by decide, fun h => ?_⟩
  have e1 : getDistance (buildIndexes [drPQ, drRP]) "p-q" "r" = some drPQ := by decide
  have e2 : getDistance (buildIndexes [drPQ, drRP]) "r" "p-q" = some drRP := by decide
  rw [e1, e2] at h
  have hrec : drPQ = drRP := Option.some.inj h
  have hfrom : drPQ.from_ = drRP.from_ := congrArg DistRec.from_ hrec
  exact absurd hfrom (by decide)

/-- Claim C4, amended: `getDistance` is symmetric for every index built from
a single-direction record set **whose ids contain no `'-'` character** (the
separator of the cache keys), and for every dash-free query pair.  Without
the dash-freeness restriction the claim is refuted by
`claim4_counterexample`. -/
theorem claim4_lookup_symm (ds : List DistRec) (a b : String)
    (hsd : singleDirection ds)
    (hds : ∀ d ∈ ds, noDash d.from_ ∧ noDash d.to_)
    (ha : noDash a) (hb : noDash b) :
    getDistance (buildIndexes ds) a b = getDistance (buildIndexes ds) b a := by
  cases e1 : buildIndexes ds (a ++ "-" ++ b) with
  | none =>
    cases e2 : buildIndexes ds (b ++ "-" ++ a) with
    | none => simp [getDistance, e1, e2]
    | some r2 => simp [getDistance, e1, e2]
  | some r1 =>
    cases e2 : buildIndexes ds (b ++ "-" ++ a) with
    | none => simp [getDistance, e1, e2]
    | some r2 =>
      obtain ⟨hm1, hk1⟩ := buildIndexes_eq_some e1
      obtain ⟨hm2, hk2⟩ := buildIndexes_eq_some e2
      obtain ⟨hf1, ht1⟩ := hds r1 hm1
      obtain ⟨hf2, ht2⟩ := hds r2 hm2
      obtain ⟨ha1, hb1⟩ := key_inj hf1 ha hk1
      obtain ⟨hb2, ha2⟩ := key_inj hf2 hb hk2
      have hsp : samePair r1 r2 := by
        unfold samePair
        exact Or.inr ⟨by rw [ha1, ha2], by rw [hb1, hb2]⟩
      unfold singleDirection at hsd
      obtain ⟨hff, _⟩ := hsd r1 hm1 r2 hm2 hsp
      have hab : a = b := by rw [← ha1, hff, hb2]
      have hsame : buildIndexes ds (a ++ "-" ++ b) = buildIndexes ds (b ++ "-" ++ a) := by
        rw [hab]
      rw [e1, e2] at hsame
      have hr : r1 = r2 := Option.some.inj hsame
      simp [getDistance, e1, e2, hr]

/-- Witness for the amended claim C4 on the dash-free record set `[drEM]`
queried in both orientations. -/
theorem claim4_lookup_symm_witness :
    getDistance (buildIndexes [drEM]) "moon" "earth" =
      getDistance (buildIndexes [drEM]) "earth" "moon" :=
  claim4_lookup_symm [drEM] "moon" "earth" (by decide) (by decide)
    (by decide) (by decide)

/-- Claim C5: for positive distance, speed of light and cap, the computed
plan has `animationDuration ≤ capMs`, `speedMultiplier ≥ 1`,
`speedMultiplier = 1` exactly when the plan is not time-lapsed, and when
`realTimeMs > capMs` the multiplier is exactly `realTimeMs / capMs`. -/
theorem claim5_plan_guarantees (d c cap : ℚ)
    (_hd : 0 < d) (_hc : 0 < c) (hcap : 0 < cap) :
    (calculateAnimationDuration d c cap).animationDuration ≤ cap ∧
    1 ≤ (calculateAnimationDuration d c cap).speedMultiplier ∧
    ((calculateAnimationDuration d c cap).speedMultiplier = 1 ↔
      (calculateAnimationDuration d c cap).isTimeLapsed = false) ∧
    (d / c * 1000 > cap →
      (calculateAnimationDuration d c cap).speedMultiplier = d / c * 1000 / cap) := by
  unfold calculateAnimationDuration
  by_cases h : d / c * 1000 > cap
  · rw [if_pos h]
    have h1 : 1 < d / c * 1000 / cap := (one_lt_div hcap).mpr h
    exact ⟨min_le_right _ _, h1.le,
      iff_of_false (ne_of_gt h1) (by simp), fun _ => rfl⟩
  · rw [if_neg h]
    exact ⟨min_le_right _ _, le_refl 1, iff_of_true rfl rfl, fun hx => absurd hx h⟩

/-- Witness for claim C5 at the spec's Earth–Moon instance
(384400000 m, 299792458 m/s, cap 10000 ms). -/
theorem claim5_plan_guarantees_witness :
    (calculateAnimationDuration 384400000 299792458 LIGHT_MAX).animationDuration ≤
      LIGHT_MAX ∧
    1 ≤ (calculateAnimationDuration 384400000 299792458 LIGHT_MAX).speedMultiplier ∧
    ((calculateAnimationDuration 384400000 299792458 LIGHT_MAX).speedMultiplier = 1 ↔
      (calculateAnimationDuration 384400000 299792458 LIGHT_MAX).isTimeLapsed = false) ∧
    (384400000 / 299792458 * 1000 > LIGHT_MAX →
      (calculateAnimationDuration 384400000 299792458 LIGHT_MAX).speedMultiplier =
        384400000 / 299792458 * 1000 / LIGHT_MAX) :=
  claim5_plan_guarantees 384400000 299792458 LIGHT_MAX
    (by norm_num) (by norm_num) (by norm_num [LIGHT_MAX])

/-- Claim C6: over every sequence of select/clear operations from the empty
selection at capacity `MAX_SELECTIONS = 2` the length never exceeds the
capacity; an eviction at capacity removes the oldest element (index 0) and
keeps the most recently added; and selecting an id already present is not
deduplicated (`[a]` then `select a` gives `[a, a]`). -/
theorem claim6_selection_invariants :
    (∀ ops : List SelOp, (runOps ops).length ≤ MAX_SELECTIONS) ∧
    (∀ x y objectId : String,
      selectObject MAX_SELECTIONS [x, y] objectId = ([y, objectId], some x)) ∧
    (∀ a : String, selectObject MAX_SELECTIONS [a] a = ([a, a], none)) :=
  ⟨fun ops => length_runOps_aux ops [] (by decide),
    fun _ _ _ => rfl, fun _ => rfl⟩

/-- Claim C7: for `v = m * 10^e` with `1 ≤ m < 10` and `e ≥ -100` (so
`|v| ≥ 1e-100`), `formatScale v` renders exactly the exponent `e` after
`"10^"` and the mantissa `m` rounded to two decimals before `" × "`; the
two-decimal value `round(100 m)/100` recovered from the string is within
`1/200` of `m`, and the exponent is recovered exactly. -/
theorem claim7_formatScale_roundtrip (m : ℚ) (e : ℤ)
    (h1 : 1 ≤ m) (h2 : m < 10) (he : -100 ≤ e) :
    formatScale (m * 10^e) = toFixedStr 2 m ++ " × 10^" ++ Int.repr e ++ " m" ∧
    |((jsRound (m * 100) : ℤ) : ℚ)/100 - m| ≤ 1/200 := by
  have hp : (0:ℚ) < 10^e := zpow_pos (by norm_num) e
  have hv : (0:ℚ) < m * 10^e := mul_pos (by linarith) hp
  have habs : |m * 10^e| = m * 10^e := abs_of_pos hv
  have hlog : Int.log 10 (m * 10^e) = e := int_log10_mul_zpow e h1 h2
  have hns : ¬(|m * 10^e| < 1/10^100) := by
    rw [habs]
    push_neg
    have hmono : (10:ℚ)^(-100:ℤ) ≤ 10^e := zpow_le_zpow_right₀ (by norm_num) he
    have h100 : (10:ℚ)^(-100:ℤ) = 1/10^(100:ℕ) := by
      rw [zpow_neg, ← zpow_natCast]
      norm_num
    calc (1:ℚ)/10^100 = 10^(-100:ℤ) := h100.symm
      _ ≤ 10^e := hmono
      _ = 1 * 10^e := (one_mul _).symm
      _ ≤ m * 10^e := mul_le_mul_of_nonneg_right h1 hp.le
  refine ⟨?_, jsRound_near m⟩
  rw [formatScale, if_neg (ne_of_gt hv), if_neg hns,
    if_neg (not_lt.mpr hv.le), habs, hlog,
    mul_div_cancel_right₀ m (ne_of_gt hp)]
  rfl

/-- Witness for claim C7 at `v = 1.5 × 10^8` (the spec's own example). -/
theorem claim7_formatScale_roundtrip_witness :
    formatScale ((3/2 : ℚ) * 10^(8:ℤ)) =
      toFixedStr 2 (3/2) ++ " × 10^" ++ Int.repr 8 ++ " m" ∧
    |((jsRound ((3/2 : ℚ) * 100) : ℤ) : ℚ)/100 - 3/2| ≤ 1/200 :=
  claim7_formatScale_roundtrip (3/2) 8 (by norm_num) (by norm_num) (by norm_num)

/-- Claim C8: `formatTime` selects its unit band by magnitude — `< 60`
seconds (3 decimals), `< 3600` minutes, `< 86400` hours, `< 31536000` days,
otherwise years with the exact divisor 31,536,000 (2 decimals each) — and
concretely `formatTime 1.282 = "1.282 seconds"` and
`formatTime 500 = "8.33 minutes"`. -/
theorem claim8_formatTime_bands :
    (∀ s : ℚ, s < 60 → formatTime s = toFixedStr 3 s ++ " seconds") ∧
    (∀ s : ℚ, 60 ≤ s → s < 3600 →
      formatTime s = toFixedStr 2 (s / 60) ++ " minutes") ∧
    (∀ s : ℚ, 3600 ≤ s → s < 86400 →
      formatTime s = toFixedStr 2 (s / 3600) ++ " hours") ∧
    (∀ s : ℚ, 86400 ≤ s → s < 31536000 →
      formatTime s = toFixedStr 2 (s / 86400) ++ " days") ∧
    (∀ s : ℚ, 31536000 ≤ s →
      formatTime s = toFixedStr 2 (s / 31536000) ++ " years") ∧
    formatTime (1282/1000) = "1.282 seconds" ∧
    formatTime 500 = "8.33 minutes" := by
  have hsec : toFixedPos 3 ((1282:ℚ)/1000) = "1.282" := by
    rw [toFixedPos_eval 3 ((1282:ℚ)/1000) 1282 ?_ (by norm_num)]
    · decide
    · rw [jsRound_eq, round_eq, Int.floor_eq_iff]
      constructor <;> norm_num
  have hmin : toFixedPos 2 ((500:ℚ)/60) = "8.33" := by
    rw [toFixedPos_eval 2 ((500:ℚ)/60) 833 ?_ (by norm_num)]
    · decide
    · rw [jsRound_eq, round_eq, Int.floor_eq_iff]
      constructor <;> norm_num
  refine ⟨?_, ?_, ?_, ?_, ?_, ?_, ?_⟩
  · intro s h
    rw [formatTime, if_pos h]
  · intro s h60 h3600
    rw [formatTime, if_neg (not_lt.mpr h60), if_pos h3600]
  · intro s h3600 h86400
    rw [formatTime, if_neg (not_lt.mpr (by linarith : (60:ℚ) ≤ s)),
      if_neg (not_lt.mpr h3600), if_pos h86400]
  · intro s h86400 hyear
    rw [formatTime, if_neg (not_lt.mpr (by linarith : (60:ℚ) ≤ s)),
      if_neg (not_lt.mpr (by linarith : (3600:ℚ) ≤ s)),
      if_neg (not_lt.mpr h86400), if_pos hyear]
  · intro s hyear
    rw [formatTime, if_neg (not_lt.mpr (by linarith : (60:ℚ) ≤ s)),
      if_neg (not_lt.mpr (by linarith : (3600:ℚ) ≤ s)),
      if_neg (not_lt.mpr (by linarith : (86400:ℚ) ≤ s)),
      if_neg (not_lt.mpr hyear)]
  · rw [formatTime, if_pos (by norm_num : (1282:ℚ)/1000 < 60),
      toFixedStr, if_neg (by norm_num : ¬((1282:ℚ)/1000 < 0)), hsec]
    decide
  · rw [formatTime, if_neg (by norm_num : ¬((500:ℚ) < 60)),
      if_pos (by norm_num : (500:ℚ) < 3600),
      toFixedStr, if_neg (by norm_num : ¬((500:ℚ)/60 < 0)), hmin]
    decide

/-- Witness for claim C8's band clauses: the years band applied at
40,000,000 seconds (the spec's `≈ 1.27 years` example). -/
theorem claim8_formatTime_bands_witness :
    formatTime 40000000 = toFixedStr 2 (40000000 / 31536000) ++ " years" :=
  claim8_formatTime_bands.2.2.2.2.1 40000000 (by norm_num)

/-- Claim C9: `getDistance` depends only on the two concatenated key
strings, and on the concrete records `drXY` (pair `{"x-y", "z"}`) and
`drYZ` (pair `{"x", "y-z"}`) — two distinct unordered pairs whose keys
coincide because the ids contain `'-'` — `buildIndexes` keeps only the
record written last for the shared key, and the lookup for the first pair
returns the record stored for the second pair. -/
theorem claim9_key_collision :
    (∀ (cache : String → Option DistRec) (a b a' b' : String),
      a ++ "-" ++ b = a' ++ "-" ++ b' → b ++ "-" ++ a = b' ++ "-" ++ a' →
      getDistance cache a b = getDistance cache a' b') ∧
    ¬ samePair drXY drYZ ∧
    distKey drXY = distKey drYZ ∧
    buildIndexes [drXY, drYZ] (distKey drXY) = some drYZ ∧
    getDistance (buildIndexes [drXY, drYZ]) "x-y" "z" = some drYZ := by
  refine ⟨?_, by decide, by decide, by decide, by decide⟩
  intro cache a b a' b' h1 h2
  unfold getDistance
  rw [h1, h2]

/-- Witness for claim C9's dependence clause, instantiated at the distinct
argument pairs `("s-s", "s")` and `("s", "s-s")`, whose key strings coincide
in both orientations (`"s-s-s"`). -/
theorem claim9_key_collision_witness :
    getDistance (buildIndexes [drXY, drYZ]) "s-s" "s" =
      getDistance (buildIndexes [drXY, drYZ]) "s" "s-s" :=
  claim9_key_collision.1 (buildIndexes [drXY, drYZ]) "s-s" "s" "s" "s-s"
    (by decide) (by decide)

/-- Claim C10: `calculateSizeRatio` is total and commutative, returns
`max / min` whenever the smaller diameter is nonzero, is at least 1 when
both diameters are positive, and returns `Infinity` (modelled as `⊤`, with
no division error) whenever the smaller diameter is 0. -/
theorem claim10_size_ratio :
    (∀ d1 d2 : ℚ, calculateSizeRatioQ d1 d2 = calculateSizeRatioQ d2 d1) ∧
    (∀ d1 d2 : ℚ, min d1 d2 ≠ 0 →
      calculateSizeRatioQ d1 d2 = ((max d1 d2 / min d1 d2 : ℚ) : WithTop ℚ)) ∧
    (∀ d1 d2 : ℚ, 0 < d1 → 0 < d2 → (1 : WithTop ℚ) ≤ calculateSizeRatioQ d1 d2) ∧
    (∀ d1 d2 : ℚ, min d1 d2 = 0 → calculateSizeRatioQ d1 d2 = ⊤) := by
  refine ⟨?_, ?_, ?_, ?_⟩
  · intro d1 d2
    unfold calculateSizeRatioQ
    rw [min_comm, max_comm]
  · intro d1 d2 h
    unfold calculateSizeRatioQ
    rw [if_neg h]
  · intro d1 d2 h1 h2
    have hmin : 0 < min d1 d2 := lt_min h1 h2
    unfold calculateSizeRatioQ
    rw [if_neg (ne_of_gt hmin)]
    have hq : (1:ℚ) ≤ max d1 d2 / min d1 d2 := (one_le_div hmin).mpr min_le_max
    exact_mod_cast hq
  · intro d1 d2 h
    unfold calculateSizeRatioQ
    rw [if_pos h]

/-- Witness for claim C10 at diameters 2 and 1. -/
theorem claim10_size_ratio_witness :
    calculateSizeRatioQ 2 1 = calculateSizeRatioQ 1 2 ∧
    (1 : WithTop ℚ) ≤ calculateSizeRatioQ 2 1 :=
  ⟨claim10_size_ratio.1 2 1, claim10_size_ratio.2.2.1 2 1 (by norm_num) (by norm_num)⟩
